import Mathlib

/-!
Verification of the django_blog repository (blog app: models.py, views.py,
urls.py) against its natural-language specification.

The source is shallowly embedded: Python dictionaries/JSON values become an
inductive `Json` type, the `requests` calls and their possible exceptions
become an oracle `Nat → AttemptResult` giving the outcome of each outbound
attempt, Django's object store becomes an explicit `DB` record threaded
through the handlers, and the broad `try/except` blocks of the views become
total functions whose failure branches return the responses the Python
`except` clauses produce.

Two pieces of the repository are referenced by the sources under `src/` but
their defining code is absent from that snapshot (the snapshot mixes two
historical revisions): the `flagged` boolean field of `Comment` (used by
views.py, tests.py and urls.py, declared nowhere in the snapshot's
models.py) and the `FlaggedCommentList` view (routed in urls.py, absent
from views.py). Those two are modelled from the spec; everything else is
translated from views.py.
-/

/-- A JSON value, as produced by Python's `json.loads` / `response.json()`. -/
inductive Json where
  | null : Json
  | bool : Bool → Json
  | num : Int → Json
  | str : String → Json
  | arr : List Json → Json
  | obj : List (String × Json) → Json
deriving Repr

/-- Python truthiness (`bool(x)`) of a JSON value: `None`, `False`, `0`,
`""`, `[]` and `{}` are falsy, everything else truthy.  Used by
`if not all([post_id, author_name, text])` in `CommentCreate.post`. -/
def jsonTruthy : Json → Bool
  | Json.null => false
  | Json.bool b => b
  | Json.num n => n != 0
  | Json.str s => !s.isEmpty
  | Json.arr xs => !xs.isEmpty
  | Json.obj kvs => !kvs.isEmpty

/-- Python `d.get(k, default)`.  Succeeds on a dict (returning the value or
the default); on any non-dict value `.get` raises `AttributeError`, which
the surrounding `except Exception` catches — modelled as `Except.error`. -/
def pyGet (j : Json) (k : String) (default : Json) : Except Unit Json :=
  match j with
  | Json.obj kvs =>
      match kvs.lookup k with
      | some v => Except.ok v
      | none => Except.ok default
  | _ => Except.error ()

/-- Python `x[0]`.  Defined on a non-empty list (first element) and on a
non-empty string (first character, as a one-character string); an empty
list or string raises `IndexError`, any other value `TypeError` — both
modelled as `Except.error`. -/
def pyIndex0 (j : Json) : Except Unit Json :=
  match j with
  | Json.arr (x :: _) => Except.ok x
  | Json.arr [] => Except.error ()
  | Json.str s => if s.isEmpty then Except.error () else Except.ok (Json.str (String.singleton s.front))
  | _ => Except.error ()

/-- Python `s.strip().lower()`: drop leading and trailing whitespace, then
lowercase every character. -/
def pyStripLower (s : String) : String :=
  String.mk (((s.data.dropWhile Char.isWhitespace).reverse.dropWhile
    Char.isWhitespace).reverse.map Char.toLower)

/-- The verdict-token extraction of `classify_comment_safety`, translated
from the line
`result.get('candidates', [{}])[0].get('content', {}).get('parts', [{}])[0].get('text', '').strip().lower()`.
An `Except.error` corresponds to a Python exception on this line, which
the handler's `except Exception` turns into the value `False`. -/
def extractVerdict (result : Json) : Except Unit String := do
  let cands ← pyGet result "candidates" (Json.arr [Json.obj []])
  let c0 ← pyIndex0 cands
  let content ← pyGet c0 "content" (Json.obj [])
  let parts ← pyGet content "parts" (Json.arr [Json.obj []])
  let p0 ← pyIndex0 parts
  let t ← pyGet p0 "text" (Json.str "")
  match t with
  | Json.str s => Except.ok (pyStripLower s)
  | _ => Except.error ()

/-- The outcome of one outbound attempt (`requests.post` + `raise_for_status`
+ `response.json()`), abstracting the network:
`requestException` is any `requests.exceptions.RequestException`
(connection error, timeout, non-2xx via `raise_for_status`);
`otherException` is any other exception raised inside the `try`;
`success body` is a 2xx response whose parsed JSON body is `body`. -/
inductive AttemptResult where
  | requestException : AttemptResult
  | otherException : AttemptResult
  | success : Json → AttemptResult

/-- The value `classify_comment_safety` produces, together with its
observable effects: the number of outbound requests actually performed and
the `time.sleep` delays, in order. -/
structure ClassifyResult where
  verdict : Bool
  requests : Nat
  sleeps : List Nat
deriving Repr, DecidableEq

/-- `max_retries = 3` in views.py. -/
def max_retries : Nat := 3

/-- `base_delay = 1` in views.py. -/
def base_delay : Nat := 1

/-- Python truthiness of `API_KEY` (`if not API_KEY`): absent (`None`) or
empty keys are falsy. -/
def keyTruthy : Option String → Bool
  | none => false
  | some s => !s.isEmpty

/-- The `for attempt in range(max_retries)` loop of
`classify_comment_safety`.  `attempt` is the loop index, `remaining` the
number of iterations left (`max_retries - attempt`), `reqs` and `sleeps`
accumulate the observable effects.  On `requestException` with
`attempt < max_retries - 1` the loop sleeps `base_delay * 2 ^ attempt` and
retries; on the last attempt it returns `False`.  Any other exception, or
a successful response, ends the loop at once. -/
def classifyFrom (behavior : Nat → AttemptResult) (attempt remaining reqs : Nat)
    (sleeps : List Nat) : ClassifyResult :=
  match remaining with
  | 0 => ⟨false, reqs, sleeps.reverse⟩
  | Nat.succ r =>
    match behavior attempt with
    | AttemptResult.success body =>
        match extractVerdict body with
        | Except.ok tok => ⟨tok == "needs_review", reqs + 1, sleeps.reverse⟩
        | Except.error _ => ⟨false, reqs + 1, sleeps.reverse⟩
    | AttemptResult.otherException => ⟨false, reqs + 1, sleeps.reverse⟩
    | AttemptResult.requestException =>
        match r with
        | 0 => ⟨false, reqs + 1, sleeps.reverse⟩
        | Nat.succ _ =>
            classifyFrom behavior (attempt + 1) r (reqs + 1)
              (base_delay * 2 ^ attempt :: sleeps)

/-- `classify_comment_safety(comment_text)` from views.py.  The comment
text only flows into the request payload, which the attempt oracle
abstracts, so the embedding is parameterised by the key and the oracle.
If the key is falsy the network is bypassed and `False` returned at once;
otherwise the retry loop runs. -/
def classify_comment_safety (apiKey : Option String)
    (behavior : Nat → AttemptResult) : ClassifyResult :=
  if keyTruthy apiKey then classifyFrom behavior 0 max_retries 0 []
  else ⟨false, 0, []⟩

example :
    classify_comment_safety (some "k") (fun _ : Nat => AttemptResult.requestException)
      = ⟨false, 3, [1, 2]⟩ := by decide

example :
    (classify_comment_safety (some "k")
      (fun _ => AttemptResult.success (Json.obj
        [("candidates", Json.arr [Json.obj
          [("content", Json.obj
            [("parts", Json.arr [Json.obj [("text", Json.str "needs_review")]])])]])]))).verdict
      = true := by decide

example :
    (classify_comment_safety (some "k")
      (fun _ => AttemptResult.success (Json.obj []))).verdict = false := by decide

/-- A `Post` record as stored (models.py `Post`): `id` assigned by the
store, `title`, `content`, and `published_date`.  Timestamps are modelled
as natural numbers (time units). -/
structure Post where
  id : Nat
  title : String
  content : String
  published_date : Nat
deriving Repr, DecidableEq

/-- A `Comment` record as stored.  `post_id`, `author_name`, `text` and
`created_date` are declared in models.py; `author_name` and `text` keep
the JSON values the handler stored.  The `flagged` boolean is modelled
from the spec: views.py writes it (`Comment.objects.create(...,
flagged=is_flagged)`), serialize_comment reads it and tests.py asserts on
it, but the snapshot's models.py (an older revision) does not declare it;
spec §3 defines it as "boolean, default false, set exactly once at
creation by the moderation orchestrator". -/
structure CommentRec where
  id : Nat
  post_id : Nat
  author_name : Json
  text : Json
  created_date : Nat
  flagged : Bool
deriving Repr

/-- The object store (external collaborator): all persisted posts and
comments, in insertion order. -/
structure DB where
  posts : List Post
  comments : List CommentRec
deriving Repr

/-- `serialize_comment(comment)` from views.py: a dict with exactly the
keys id, author_name, text, created_date, flagged (no post_id).
`isoformat()` is modelled as the decimal rendering of the timestamp. -/
def serialize_comment (c : CommentRec) : Json :=
  Json.obj
    [("id", Json.num c.id),
     ("author_name", c.author_name),
     ("text", c.text),
     ("created_date", Json.str (toString c.created_date)),
     ("flagged", Json.bool c.flagged)]

/-- The keys of a JSON object, in order. -/
def jsonKeys : Json → List String
  | Json.obj kvs => kvs.map Prod.fst
  | _ => []

/-- The value of a key in a JSON object (`none` on a non-object or absent
key). -/
def jsonLookup (j : Json) (k : String) : Option Json :=
  match j with
  | Json.obj kvs => kvs.lookup k
  | _ => none

/-- Django primary-key coercion for `get_object_or_404(Post, pk=post_id)`:
an integer is used as is, a digit string is coerced; anything else fails
the lookup (the resulting exception is caught by the handler's generic
`except`). -/
def jsonToPk : Json → Option Nat
  | Json.num n => if n < 0 then none else some n.toNat
  | Json.str s => s.toNat?
  | _ => none

/-- `get_object_or_404(Post, pk=pk)`: the stored post with that id, if
any. -/
def findPost (db : DB) (pk : Nat) : Option Post :=
  db.posts.find? (fun p => p.id == pk)

/-- Observable events of a comment-creation request, in the order the
handler performs them: the classification-client call (with the verdict it
returned) and the storage write. -/
inductive Event where
  | classify : Bool → Event
  | insertComment : CommentRec → Event

/-- The outcome of `CommentCreate.post`: HTTP status, response body, the
store after the request, and the event trace. -/
structure CommentCreateResult where
  status : Nat
  body : Json
  db : DB
  events : List Event

/-- `CommentCreate.post` from views.py.  `reqBody` is the result of
`json.loads(request.body)` (`Except.error` = `JSONDecodeError` → 400
"Invalid JSON format.").  On a dict body the handler reads
`post_id`/`author_name`/`text` with `.get` (absent → `None`), rejects if
any is falsy (400 "... are required."), looks the post up
(`get_object_or_404`; a failure is caught by the trailing
`except Exception` → 400 "Post not found or internal error."), then calls
`classify_comment_safety` and only then persists the comment with the
returned verdict, answering 201 with `serialize_comment`.  A non-dict JSON
body makes `.get` raise `AttributeError`, also caught by the trailing
`except` → the same generic 400. -/
def commentCreatePost (db : DB) (reqBody : Except Unit Json)
    (apiKey : Option String) (behavior : Nat → AttemptResult)
    (now : Nat) : CommentCreateResult :=
  match reqBody with
  | Except.error _ =>
      ⟨400, Json.obj [("error", Json.str "Invalid JSON format.")], db, []⟩
  | Except.ok (Json.obj kvs) =>
      let post_id := (kvs.lookup "post_id").getD Json.null
      let author_name := (kvs.lookup "author_name").getD Json.null
      let text := (kvs.lookup "text").getD Json.null
      if jsonTruthy post_id && jsonTruthy author_name && jsonTruthy text then
        match (jsonToPk post_id).bind (findPost db) with
        | some post =>
            let r := classify_comment_safety apiKey behavior
            let c : CommentRec :=
              { id := db.comments.length + 1, post_id := post.id,
                author_name := author_name, text := text,
                created_date := now, flagged := r.verdict }
            ⟨201, serialize_comment c,
              { db with comments := db.comments ++ [c] },
              [Event.classify r.verdict, Event.insertComment c]⟩
        | none =>
            ⟨400, Json.obj [("error", Json.str "Post not found or internal error.")],
              db, []⟩
      else
        ⟨400, Json.obj [("error", Json.str "post_id, author_name, and text are required.")],
          db, []⟩
  | Except.ok _ =>
      ⟨400, Json.obj [("error", Json.str "Post not found or internal error.")], db, []⟩

/-- The order `order_by('-published_date')` sorts by: newest first. -/
def postLe (p q : Post) : Prop := q.published_date ≤ p.published_date

instance : DecidableRel postLe := fun p q =>
  inferInstanceAs (Decidable (q.published_date ≤ p.published_date))

instance : IsTotal Post postLe :=
  ⟨fun p q => Nat.le_total q.published_date p.published_date⟩

instance : IsTrans Post postLe :=
  ⟨fun _ _ _ h h' => Nat.le_trans h' h⟩

/-- The per-post projection of `PostListCreate.get`: exactly
`{id, title, published_date}`, omitting content and comments. -/
def projectPostSummary (p : Post) : Json :=
  Json.obj
    [("id", Json.num p.id),
     ("title", Json.str p.title),
     ("published_date", Json.str (toString p.published_date))]

/-- `PostListCreate.get` from views.py: all posts ordered by
`published_date` descending, each projected to id/title/published_date,
returned with status 200. -/
def postListGet (db : DB) : Nat × Json :=
  (200, Json.arr ((List.insertionSort postLe db.posts).map projectPostSummary))

/-- Modelled from the spec: the `FlaggedCommentList` view is routed in
urls.py (`comments/flagged/`) but its class is absent from the snapshot's
views.py.  Spec §4.3/§6: `GET /comments/flagged/` → "200, list of comments
where `flagged == true`". -/
def flaggedCommentListGet (db : DB) : Nat × Json :=
  (200, Json.arr ((db.comments.filter (fun c => c.flagged)).map serialize_comment))

/-- The `MOCK_FLAGGED_RESPONSE` payload of tests.py:
`{"candidates": [{"content": {"parts": [{"text": "needs_review"}]}}]}`. -/
def mockFlaggedBody : Json :=
  Json.obj
    [("candidates", Json.arr
      [Json.obj [("content", Json.obj
        [("parts", Json.arr [Json.obj [("text", Json.str "needs_review")]])])]])]

/-- The `MOCK_SAFE_RESPONSE` payload of tests.py:
`{"candidates": [{"content": {"parts": [{"text": "safe"}]}}]}`. -/
def mockSafeBody : Json :=
  Json.obj
    [("candidates", Json.arr
      [Json.obj [("content", Json.obj
        [("parts", Json.arr [Json.obj [("text", Json.str "safe")]])])]])]

/-- A sample post (id 1), mirroring the `setUp` of tests.py. -/
def samplePost : Post :=
  { id := 1, title := "Test Post", content := "Content for testing.",
    published_date := 10 }

/-- A sample store holding only `samplePost`, mirroring the `setUp` of
tests.py. -/
def sampleDB : DB :=
  { posts := [samplePost], comments := [] }

/-- A sample valid comment-creation body, mirroring `base_data` of
tests.py. -/
def sampleKvs : List (String × Json) :=
  [("post_id", Json.num 1), ("author_name", Json.str "Test Author"),
   ("text", Json.str "A placeholder comment.")]

/-- Two sample posts and their store, mirroring the `PostAPITest` setup
of tests.py (the first post is newer). -/
def samplePostA : Post :=
  { id := 1, title := "First Post", content := "One", published_date := 10 }

/-- The older of the two sample posts of `samplePostDB`. -/
def samplePostB : Post :=
  { id := 2, title := "Second Post", content := "Two", published_date := 9 }

/-- A store holding the two sample posts. -/
def samplePostDB : DB :=
  { posts := [samplePostA, samplePostB], comments := [] }

/-- A sample flagged comment. -/
def sampleFlagged : CommentRec :=
  { id := 1, post_id := 1, author_name := Json.str "A",
    text := Json.str "t1", created_date := 11, flagged := true }

/-- A sample unflagged comment. -/
def sampleUnflagged : CommentRec :=
  { id := 2, post_id := 1, author_name := Json.str "B",
    text := Json.str "t2", created_date := 12, flagged := false }

/-- A store holding one flagged and one unflagged comment. -/
def sampleCommentDB : DB :=
  { posts := [samplePost], comments := [sampleFlagged, sampleUnflagged] }

/-- If no attempt ever succeeds, the retry loop of
`classify_comment_safety` can only produce the verdict `False`, whatever
the loop position and accumulators. -/
theorem classifyFrom_no_success (behavior : Nat → AttemptResult)
    (h : ∀ i body, behavior i ≠ AttemptResult.success body) :
    ∀ remaining attempt reqs sleeps,
      (classifyFrom behavior attempt remaining reqs sleeps).verdict = false := by
  intro remaining
  induction remaining with
  | zero =>
      intro attempt reqs sleeps
      simp [classifyFrom]
  | succ r ih =>
      intro attempt reqs sleeps
      cases hb : behavior attempt with
      | success body => exact absurd hb (h attempt body)
      | otherException => simp [classifyFrom, hb]
      | requestException =>
          cases r with
          | zero => simp [classifyFrom, hb]
          | succ r' =>
              simpa [classifyFrom, hb] using
                ih (attempt + 1) (reqs + 1) (base_delay * 2 ^ attempt :: sleeps)

/-- C2: for every input and every behaviour of the remote endpoint,
`classify_comment_safety` is a total function (it never raises: every
Python exception is modelled inside `AttemptResult` or `extractVerdict`
and caught), and whenever no attempt yields a successful response — any
mix of connection errors, timeouts, non-2xx statuses or other exceptions —
the returned verdict is `false`. -/
theorem classify_failure_paths_false (apiKey : Option String)
    (behavior : Nat → AttemptResult)
    (h : ∀ i body, behavior i ≠ AttemptResult.success body) :
    (classify_comment_safety apiKey behavior).verdict = false := by
  unfold classify_comment_safety
  by_cases hk : keyTruthy apiKey <;>
    simp [hk, classifyFrom_no_success behavior h]

/-- Instantiates `classify_failure_paths_false` at the behaviour that
fails with a request exception on every attempt. -/
theorem classify_failure_paths_false_witness :
    (∀ i body,
      (fun _ : Nat => AttemptResult.requestException) i ≠ AttemptResult.success body) ∧
    (classify_comment_safety (some "key")
      (fun _ : Nat => AttemptResult.requestException)).verdict = false :=
  ⟨fun _ _ h => AttemptResult.noConfusion h,
   classify_failure_paths_false (some "key") _
     (fun _ _ h => AttemptResult.noConfusion h)⟩

/-- C3 fails as stated: with a truthy key and every attempt failing
transiently, the loop performs 3 attempts but sleeps only after the first
two, with delays 1 and 2 — the sleep list is `[1, 2]`, not `[1, 2, 4]`,
and the total deliberate backoff is 3 time units, not 7 (the guard
`attempt < max_retries - 1` skips the sleep of the final attempt, so the
delay `4 = base_delay * 2 ^ 2` is never slept). -/
theorem retry_backoff_counterexample :
    (classify_comment_safety (some "k")
      (fun _ : Nat => AttemptResult.requestException)).sleeps = [1, 2] ∧
    (classify_comment_safety (some "k")
      (fun _ : Nat => AttemptResult.requestException)).sleeps ≠ [1, 2, 4] ∧
    ((classify_comment_safety (some "k")
      (fun _ : Nat => AttemptResult.requestException)).sleeps).sum ≠ 7 :=
  ⟨by decide, by decide, by decide⟩

/-- C3 (amended): on transient failure of every attempt, the client makes
exactly 3 attempts, sleeping on the attempt boundaries with exponential
backoff starting at 1 and doubling — delays 1 and 2, with no sleep after
the last attempt — so the worst-case deliberate backoff before giving up
totals 1 + 2 = 3 time units, and the verdict is `false`. -/
theorem retry_backoff_three_attempts (apiKey : Option String)
    (behavior : Nat → AttemptResult) (hk : keyTruthy apiKey = true)
    (hfail : ∀ i, behavior i = AttemptResult.requestException) :
    classify_comment_safety apiKey behavior = ⟨false, 3, [1, 2]⟩ ∧
    (classify_comment_safety apiKey behavior).sleeps.sum = 3 := by
  have h0 := hfail 0
  have h1 := hfail 1
  have h2 := hfail 2
  constructor <;>
    simp [classify_comment_safety, hk, max_retries, base_delay,
      classifyFrom, h0, h1, h2]

/-- Instantiates `retry_backoff_three_attempts` at a concrete key and the
always-failing behaviour. -/
theorem retry_backoff_three_attempts_witness :
    keyTruthy (some "k") = true ∧
    (∀ i, (fun _ : Nat => AttemptResult.requestException) i
      = AttemptResult.requestException) ∧
    (classify_comment_safety (some "k")
      (fun _ : Nat => AttemptResult.requestException) = ⟨false, 3, [1, 2]⟩ ∧
     (classify_comment_safety (some "k")
      (fun _ : Nat => AttemptResult.requestException)).sleeps.sum = 3) :=
  ⟨rfl, fun _ => rfl,
   retry_backoff_three_attempts (some "k") _ rfl (fun _ => rfl)⟩

/-- C4: with a truthy key and a successful first attempt with parsed body
`body`, the verdict is `true` iff the token extracted from the nested
response structure is exactly `"needs_review"`; every other extraction
outcome — a different token, the empty token, or a missing/unexpected
structure that makes extraction fail — yields `false`, never an error. -/
theorem classify_success_iff_needs_review (apiKey : Option String)
    (behavior : Nat → AttemptResult) (body : Json)
    (hk : keyTruthy apiKey = true)
    (h0 : behavior 0 = AttemptResult.success body) :
    (classify_comment_safety apiKey behavior).verdict = true ↔
      extractVerdict body = Except.ok "needs_review" := by
  cases he : extractVerdict body with
  | ok tok =>
      simp [classify_comment_safety, hk, max_retries, classifyFrom, h0, he]
  | error e =>
      simp [classify_comment_safety, hk, max_retries, classifyFrom, h0, he]

/-- Instantiates `classify_success_iff_needs_review` at the flagged mock
body of tests.py, where both sides of the equivalence hold. -/
theorem classify_success_iff_needs_review_witness :
    keyTruthy (some "k") = true ∧
    (fun _ : Nat => AttemptResult.success mockFlaggedBody) 0
      = AttemptResult.success mockFlaggedBody ∧
    ((classify_comment_safety (some "k")
        (fun _ : Nat => AttemptResult.success mockFlaggedBody)).verdict = true ↔
      extractVerdict mockFlaggedBody = Except.ok "needs_review") :=
  ⟨rfl, rfl, classify_success_iff_needs_review (some "k") _ mockFlaggedBody rfl rfl⟩

/-- C8: with a falsy credential (absent or empty key),
`classify_comment_safety` performs zero outbound requests, sleeps never,
and returns `false` immediately. -/
theorem classify_no_key_skips_network (apiKey : Option String)
    (behavior : Nat → AttemptResult) (h : keyTruthy apiKey = false) :
    classify_comment_safety apiKey behavior = ⟨false, 0, []⟩ := by
  simp [classify_comment_safety, h]

/-- Instantiates `classify_no_key_skips_network` at the absent key. -/
theorem classify_no_key_skips_network_witness :
    keyTruthy none = false ∧
    classify_comment_safety none (fun _ : Nat => AttemptResult.success mockFlaggedBody)
      = ⟨false, 0, []⟩ :=
  ⟨rfl, classify_no_key_skips_network none _ rfl⟩

/-- If a truthy key is configured and the first attempt succeeds with
parsed body `body`, the verdict of `classify_comment_safety` is `true`
exactly when extraction yields the token `"needs_review"`. -/
theorem classify_verdict_first_success (apiKey : Option String)
    (behavior : Nat → AttemptResult) (body : Json)
    (hk : keyTruthy apiKey = true)
    (h0 : behavior 0 = AttemptResult.success body) :
    (classify_comment_safety apiKey behavior).verdict = true ↔
      extractVerdict body = Except.ok "needs_review" := by
  cases he : extractVerdict body with
  | ok tok =>
      simp [classify_comment_safety, hk, max_retries, classifyFrom, h0, he]
  | error e =>
      simp [classify_comment_safety, hk, max_retries, classifyFrom, h0, he]

/-- If every attempt fails with a request exception, the verdict of
`classify_comment_safety` is `false` (for any key). -/
theorem classify_all_requestException_false (apiKey : Option String)
    (behavior : Nat → AttemptResult)
    (h : ∀ i, behavior i = AttemptResult.requestException) :
    (classify_comment_safety apiKey behavior).verdict = false := by
  have h' : ∀ i body, behavior i ≠ AttemptResult.success body := by
    intro i body hc
    rw [h i] at hc
    exact AttemptResult.noConfusion hc
  unfold classify_comment_safety
  by_cases hk : keyTruthy apiKey <;>
    simp [hk, classifyFrom_no_success behavior h']

/-- Reduction of `CommentCreate.post` on a valid request: a JSON-object
body whose `post_id`, `author_name` and `text` are all truthy and whose
`post_id` resolves to the stored post `p`. -/
theorem commentCreatePost_valid (db : DB) (kvs : List (String × Json))
    (apiKey : Option String) (behavior : Nat → AttemptResult) (now : Nat)
    (p : Post)
    (hpid : jsonTruthy ((kvs.lookup "post_id").getD Json.null) = true)
    (hname : jsonTruthy ((kvs.lookup "author_name").getD Json.null) = true)
    (htext : jsonTruthy ((kvs.lookup "text").getD Json.null) = true)
    (hpost : (jsonToPk ((kvs.lookup "post_id").getD Json.null)).bind
      (findPost db) = some p) :
    commentCreatePost db (Except.ok (Json.obj kvs)) apiKey behavior now =
      ⟨201,
       serialize_comment
         { id := db.comments.length + 1, post_id := p.id,
           author_name := (kvs.lookup "author_name").getD Json.null,
           text := (kvs.lookup "text").getD Json.null,
           created_date := now,
           flagged := (classify_comment_safety apiKey behavior).verdict },
       { db with comments := db.comments ++
           [{ id := db.comments.length + 1, post_id := p.id,
              author_name := (kvs.lookup "author_name").getD Json.null,
              text := (kvs.lookup "text").getD Json.null,
              created_date := now,
              flagged := (classify_comment_safety apiKey behavior).verdict }] },
       [Event.classify (classify_comment_safety apiKey behavior).verdict,
        Event.insertComment
          { id := db.comments.length + 1, post_id := p.id,
            author_name := (kvs.lookup "author_name").getD Json.null,
            text := (kvs.lookup "text").getD Json.null,
            created_date := now,
            flagged := (classify_comment_safety apiKey behavior).verdict }]⟩ := by
  simp [commentCreatePost, hpid, hname, htext, hpost]

/-- C1: a comment-creation request with a valid JSON-object body whose
`post_id`, `author_name` and `text` are truthy and whose `post_id`
resolves to an existing post answers 201 with the full serialized comment
payload, which carries the boolean `flagged` key; the persisted comment's
`flagged` equals the verdict of `classify_comment_safety`, and — when the
client is configured and the endpoint answers the first attempt — that
verdict is `true` exactly when the extracted token is `"needs_review"`
(so `false` for `"safe"`). -/
theorem comment_create_valid_201 (db : DB) (kvs : List (String × Json))
    (apiKey : Option String) (behavior : Nat → AttemptResult) (now : Nat)
    (p : Post)
    (hpid : jsonTruthy ((kvs.lookup "post_id").getD Json.null) = true)
    (hname : jsonTruthy ((kvs.lookup "author_name").getD Json.null) = true)
    (htext : jsonTruthy ((kvs.lookup "text").getD Json.null) = true)
    (hpost : (jsonToPk ((kvs.lookup "post_id").getD Json.null)).bind
      (findPost db) = some p) :
    (commentCreatePost db (Except.ok (Json.obj kvs)) apiKey behavior now).status
      = 201 ∧
    ∃ c : CommentRec,
      (commentCreatePost db (Except.ok (Json.obj kvs)) apiKey behavior now).db.comments
        = db.comments ++ [c] ∧
      (commentCreatePost db (Except.ok (Json.obj kvs)) apiKey behavior now).body
        = serialize_comment c ∧
      jsonLookup (serialize_comment c) "flagged" = some (Json.bool c.flagged) ∧
      c.flagged = (classify_comment_safety apiKey behavior).verdict ∧
      (∀ b0 : Json, keyTruthy apiKey = true →
        behavior 0 = AttemptResult.success b0 →
        (c.flagged = true ↔ extractVerdict b0 = Except.ok "needs_review")) := by
  rw [commentCreatePost_valid db kvs apiKey behavior now p hpid hname htext hpost]
  refine ⟨rfl, _, rfl, rfl, rfl, rfl, ?_⟩
  intro b0 hk h0
  exact classify_verdict_first_success apiKey behavior b0 hk h0

/-- Instantiates `comment_create_valid_201` at the tests.py scenario:
the sample store, the sample body, a configured key and an endpoint whose
first attempt returns the flagged mock payload. -/
theorem comment_create_valid_201_witness :
    jsonTruthy ((sampleKvs.lookup "post_id").getD Json.null) = true ∧
    jsonTruthy ((sampleKvs.lookup "author_name").getD Json.null) = true ∧
    jsonTruthy ((sampleKvs.lookup "text").getD Json.null) = true ∧
    (jsonToPk ((sampleKvs.lookup "post_id").getD Json.null)).bind
      (findPost sampleDB) = some samplePost ∧
    ((commentCreatePost sampleDB (Except.ok (Json.obj sampleKvs)) (some "k")
        (fun _ : Nat => AttemptResult.success mockFlaggedBody) 20).status = 201 ∧
     ∃ c : CommentRec,
      (commentCreatePost sampleDB (Except.ok (Json.obj sampleKvs)) (some "k")
        (fun _ : Nat => AttemptResult.success mockFlaggedBody) 20).db.comments
        = sampleDB.comments ++ [c] ∧
      (commentCreatePost sampleDB (Except.ok (Json.obj sampleKvs)) (some "k")
        (fun _ : Nat => AttemptResult.success mockFlaggedBody) 20).body
        = serialize_comment c ∧
      jsonLookup (serialize_comment c) "flagged" = some (Json.bool c.flagged) ∧
      c.flagged = (classify_comment_safety (some "k")
        (fun _ : Nat => AttemptResult.success mockFlaggedBody)).verdict ∧
      (∀ b0 : Json, keyTruthy (some "k") = true →
        (fun _ : Nat => AttemptResult.success mockFlaggedBody) 0
          = AttemptResult.success b0 →
        (c.flagged = true ↔ extractVerdict b0 = Except.ok "needs_review"))) :=
  ⟨by decide, by decide, by decide, by decide,
   comment_create_valid_201 sampleDB sampleKvs (some "k")
     (fun _ : Nat => AttemptResult.success mockFlaggedBody) 20 samplePost
     (by decide) (by decide) (by decide) (by decide)⟩

/-- C6: a comment-creation request that fails JSON parsing, or whose
`post_id`, `author_name` or `text` is missing/falsy, or whose `post_id`
does not resolve to a stored post, answers the single generic status 400
and leaves the stored comments unchanged (no comment is persisted). -/
theorem comment_create_invalid_400 (db : DB) (reqBody : Except Unit Json)
    (apiKey : Option String) (behavior : Nat → AttemptResult) (now : Nat)
    (h : reqBody = Except.error () ∨
      ∃ kvs : List (String × Json), reqBody = Except.ok (Json.obj kvs) ∧
        (jsonTruthy ((kvs.lookup "post_id").getD Json.null) = false ∨
         jsonTruthy ((kvs.lookup "author_name").getD Json.null) = false ∨
         jsonTruthy ((kvs.lookup "text").getD Json.null) = false ∨
         (jsonToPk ((kvs.lookup "post_id").getD Json.null)).bind
           (findPost db) = none)) :
    (commentCreatePost db reqBody apiKey behavior now).status = 400 ∧
    (commentCreatePost db reqBody apiKey behavior now).db.comments
      = db.comments := by
  rcases h with h | ⟨kvs, hb, hf⟩
  · subst h
    exact ⟨rfl, rfl⟩
  · subst hb
    rcases hf with hf | hf | hf | hf
    · constructor <;> simp [commentCreatePost, hf]
    · constructor <;> simp [commentCreatePost, hf]
    · constructor <;> simp [commentCreatePost, hf]
    · by_cases hc : (jsonTruthy ((kvs.lookup "post_id").getD Json.null) &&
        jsonTruthy ((kvs.lookup "author_name").getD Json.null) &&
        jsonTruthy ((kvs.lookup "text").getD Json.null)) = true
      · constructor <;> simp [commentCreatePost, hc, hf]
      · constructor <;> simp [commentCreatePost, hc]

/-- Instantiates `comment_create_invalid_400` at a body missing the
`text` field (the tests.py scenario `test_comment_creation_missing_data`). -/
theorem comment_create_invalid_400_witness :
    ((Except.ok (Json.obj [("post_id", Json.num 1),
        ("author_name", Json.str "Test")]) : Except Unit Json)
        = Except.error () ∨
      ∃ kvs : List (String × Json),
        (Except.ok (Json.obj [("post_id", Json.num 1),
          ("author_name", Json.str "Test")]) : Except Unit Json)
          = Except.ok (Json.obj kvs) ∧
        (jsonTruthy ((kvs.lookup "post_id").getD Json.null) = false ∨
         jsonTruthy ((kvs.lookup "author_name").getD Json.null) = false ∨
         jsonTruthy ((kvs.lookup "text").getD Json.null) = false ∨
         (jsonToPk ((kvs.lookup "post_id").getD Json.null)).bind
           (findPost sampleDB) = none)) ∧
    (commentCreatePost sampleDB
      (Except.ok (Json.obj [("post_id", Json.num 1),
        ("author_name", Json.str "Test")]))
      (some "k") (fun _ : Nat => AttemptResult.requestException) 20).status
      = 400 ∧
    (commentCreatePost sampleDB
      (Except.ok (Json.obj [("post_id", Json.num 1),
        ("author_name", Json.str "Test")]))
      (some "k") (fun _ : Nat => AttemptResult.requestException) 20).db.comments
      = sampleDB.comments :=
  ⟨Or.inr ⟨[("post_id", Json.num 1), ("author_name", Json.str "Test")],
     rfl, Or.inr (Or.inr (Or.inl (by decide)))⟩,
   comment_create_invalid_400 sampleDB _ (some "k")
     (fun _ : Nat => AttemptResult.requestException) 20
     (Or.inr ⟨[("post_id", Json.num 1), ("author_name", Json.str "Test")],
       rfl, Or.inr (Or.inr (Or.inl (by decide)))⟩)⟩

/-- C7: on a valid comment-creation request the handler's event trace is
exactly `[classify v, insertComment c]` — the classification-client call
strictly precedes the storage write, and no comment is persisted before a
verdict is obtained — the persisted comment's `flagged` is that verdict,
and when the client fails with a request exception on every attempt the
comment is still created (status 201) with `flagged = false`. -/
theorem comment_create_classify_before_write (db : DB)
    (kvs : List (String × Json)) (apiKey : Option String)
    (behavior : Nat → AttemptResult) (now : Nat) (p : Post)
    (hpid : jsonTruthy ((kvs.lookup "post_id").getD Json.null) = true)
    (hname : jsonTruthy ((kvs.lookup "author_name").getD Json.null) = true)
    (htext : jsonTruthy ((kvs.lookup "text").getD Json.null) = true)
    (hpost : (jsonToPk ((kvs.lookup "post_id").getD Json.null)).bind
      (findPost db) = some p) :
    ∃ (v : Bool) (c : CommentRec),
      (commentCreatePost db (Except.ok (Json.obj kvs)) apiKey behavior now).events
        = [Event.classify v, Event.insertComment c] ∧
      c.flagged = v ∧
      (commentCreatePost db (Except.ok (Json.obj kvs)) apiKey behavior now).db.comments
        = db.comments ++ [c] ∧
      ((∀ i, behavior i = AttemptResult.requestException) →
        (commentCreatePost db (Except.ok (Json.obj kvs)) apiKey behavior now).status
          = 201 ∧ v = false) := by
  rw [commentCreatePost_valid db kvs apiKey behavior now p hpid hname htext hpost]
  refine ⟨(classify_comment_safety apiKey behavior).verdict, _,
    rfl, rfl, rfl, fun hf => ⟨rfl, ?_⟩⟩
  exact classify_all_requestException_false apiKey behavior hf

/-- Instantiates `comment_create_classify_before_write` at the tests.py
scenario `test_comment_creation_api_failure`: every attempt raises. -/
theorem comment_create_classify_before_write_witness :
    jsonTruthy ((sampleKvs.lookup "post_id").getD Json.null) = true ∧
    jsonTruthy ((sampleKvs.lookup "author_name").getD Json.null) = true ∧
    jsonTruthy ((sampleKvs.lookup "text").getD Json.null) = true ∧
    (jsonToPk ((sampleKvs.lookup "post_id").getD Json.null)).bind
      (findPost sampleDB) = some samplePost ∧
    ∃ (v : Bool) (c : CommentRec),
      (commentCreatePost sampleDB (Except.ok (Json.obj sampleKvs)) (some "k")
        (fun _ : Nat => AttemptResult.requestException) 20).events
        = [Event.classify v, Event.insertComment c] ∧
      c.flagged = v ∧
      (commentCreatePost sampleDB (Except.ok (Json.obj sampleKvs)) (some "k")
        (fun _ : Nat => AttemptResult.requestException) 20).db.comments
        = sampleDB.comments ++ [c] ∧
      ((∀ i, (fun _ : Nat => AttemptResult.requestException) i
          = AttemptResult.requestException) →
        (commentCreatePost sampleDB (Except.ok (Json.obj sampleKvs)) (some "k")
          (fun _ : Nat => AttemptResult.requestException) 20).status = 201 ∧
        v = false) :=
  ⟨by decide, by decide, by decide, by decide,
   comment_create_classify_before_write sampleDB sampleKvs (some "k")
     (fun _ : Nat => AttemptResult.requestException) 20 samplePost
     (by decide) (by decide) (by decide) (by decide)⟩

/-- C9: `GET /posts/` answers 200 with the array of all stored posts (a
permutation of the store's post list), ordered by `published_date`
descending, each projected to exactly the keys id, title and
published_date — content and comments are omitted. -/
theorem post_list_sorted_desc (db : DB) :
    (postListGet db).1 = 200 ∧
    (postListGet db).2
      = Json.arr ((List.insertionSort postLe db.posts).map projectPostSummary) ∧
    (List.insertionSort postLe db.posts).Perm db.posts ∧
    List.Sorted postLe (List.insertionSort postLe db.posts) ∧
    (∀ p : Post, jsonKeys (projectPostSummary p)
      = ["id", "title", "published_date"]) ∧
    (∀ p : Post, "content" ∉ jsonKeys (projectPostSummary p) ∧
      "comments" ∉ jsonKeys (projectPostSummary p)) :=
  ⟨rfl, rfl, List.perm_insertionSort postLe db.posts,
   List.sorted_insertionSort postLe db.posts,
   fun _ => rfl,
   fun _ => ⟨by simp [projectPostSummary, jsonKeys],
             by simp [projectPostSummary, jsonKeys]⟩⟩

/-- C5: `GET /comments/flagged/` answers 200 with the serializations of
exactly the stored comments whose `flagged` value is `true`. -/
theorem flagged_list_exactly_flagged (db : DB) :
    (flaggedCommentListGet db).1 = 200 ∧
    (flaggedCommentListGet db).2
      = Json.arr ((db.comments.filter (fun c => c.flagged)).map
          serialize_comment) ∧
    ∀ c : CommentRec,
      c ∈ db.comments.filter (fun c => c.flagged) ↔
        c ∈ db.comments ∧ c.flagged = true := by
  refine ⟨rfl, rfl, fun c => ?_⟩
  simp [List.mem_filter]

/-- C10: the serialized comment payload has exactly the keys id,
author_name, text, created_date and flagged, in that order, and in
particular carries no post_id key. -/
theorem serialize_comment_exact_keys (c : CommentRec) :
    jsonKeys (serialize_comment c)
      = ["id", "author_name", "text", "created_date", "flagged"] ∧
    "post_id" ∉ jsonKeys (serialize_comment c) :=
  ⟨rfl, by simp [serialize_comment, jsonKeys]⟩

/-- Instantiates `post_list_sorted_desc` at the two-post sample store. -/
theorem post_list_sorted_desc_witness :
    (postListGet samplePostDB).1 = 200 ∧
    List.Sorted postLe (List.insertionSort postLe samplePostDB.posts) ∧
    jsonKeys (projectPostSummary samplePostA)
      = ["id", "title", "published_date"] :=
  ⟨(post_list_sorted_desc samplePostDB).1,
   (post_list_sorted_desc samplePostDB).2.2.2.1,
   (post_list_sorted_desc samplePostDB).2.2.2.2.1 samplePostA⟩

/-- Instantiates `flagged_list_exactly_flagged` at the sample store with
one flagged and one unflagged comment. -/
theorem flagged_list_exactly_flagged_witness :
    (flaggedCommentListGet sampleCommentDB).1 = 200 ∧
    sampleFlagged ∈ sampleCommentDB.comments.filter (fun c => c.flagged) :=
  ⟨(flagged_list_exactly_flagged sampleCommentDB).1,
   ((flagged_list_exactly_flagged sampleCommentDB).2.2 sampleFlagged).mpr
     ⟨List.mem_cons_self _ _, rfl⟩⟩

/-- Instantiates `serialize_comment_exact_keys` at the sample flagged
comment. -/
theorem serialize_comment_exact_keys_witness :
    jsonKeys (serialize_comment sampleFlagged)
      = ["id", "author_name", "text", "created_date", "flagged"] ∧
    "post_id" ∉ jsonKeys (serialize_comment sampleFlagged) :=
  serialize_comment_exact_keys sampleFlagged
